import Mathlib

/-!
Verification of the UniversalYogaHybrid mobile client.

This file gives a shallow embedding, in Lean 4, of the data model and the
operations of the yoga-class booking client: the data-access facade
(`firebaseService.ts`), the cart context (`CartContext.tsx`), the manual
authentication context (second revision of `AuthContext.tsx`), the
course-details screen transformation (`course-details.tsx`), the booking
flow of the classes screen (`classes.tsx` / `course-details.tsx`) and the
cart checkout loop (`cart.tsx`).  JavaScript numbers that the code only
adds and subtracts are modelled as `Int`; `Date` values are modelled by
their epoch-milliseconds as `Nat`; Firestore documents are modelled as
records carrying their document id; the two local-storage slots are
modelled as `Option` values holding the structured serialized form.
-/

/-- JavaScript `x || d` for numbers: `d` when `x` is falsy (zero). -/
def jsOrInt (x d : Int) : Int := if x = 0 then d else x

/-- JavaScript `x || d` for strings: `d` when `x` is falsy (empty). -/
def jsOrStr (x d : String) : String := if x = "" then d else x

/-- A class-instance document of the `class_instances` collection, as in the
interface `ClassInstance` of `firebaseService.ts`. -/
structure ClassInstance where
  id : String
  courseId : String
  courseName : String
  date : String
  teacher : String
  comments : String
  availableSpots : Int
  pricePerClass : Int
  typeOfClass : String
  duration : Int
  deriving Repr, DecidableEq

/-- The data of a booking document as written to the `bookings` collection
(the interface `Booking` of `firebaseService.ts` without the generated
document id; `bookingDate` is the epoch-milliseconds of `Timestamp.now()`,
`status` is the string literal written by the client). -/
structure BookingData where
  customerId : String
  customerName : String
  customerEmail : String
  courseId : String
  courseName : String
  classId : String
  classDate : String
  teacher : String
  pricePerClass : Int
  bookingDate : Nat
  status : String
  deriving Repr, DecidableEq

/-- Modelled from the spec: the display projection of a class instance
(`ClassForDisplay`) exported by the later revision of the data-access
module, which is absent from the sources; its fields are those used by its
in-repo callers (`CartContext.tsx`, `cart.tsx`, `classes.tsx`): the class
instance id, its course reference and denormalized course fields. -/
structure ClassForDisplay where
  id : String
  courseId : String
  courseName : String
  date : String
  teacher : String
  duration : Int
  difficulty : String
  availableSpots : Int
  pricePerClass : Int
  deriving Repr, DecidableEq

/-- A cart entry, as in the interface `CartItem` of `CartContext.tsx`;
`addedAt` is a `Date`, modelled by epoch-milliseconds. -/
structure CartItem where
  id : String
  classData : ClassForDisplay
  addedAt : Nat
  deriving Repr, DecidableEq

/-- A cart entry as it sits in the local-storage slot: the JSON
serialization turns the `addedAt` date into a string and keeps every other
field structurally. -/
structure StoredCartItem where
  id : String
  classData : ClassForDisplay
  addedAt : String
  deriving Repr, DecidableEq

/-! ### Date serialization

`JSON.stringify` writes a `Date` as a string and `new Date(s)` in
`loadCartFromStorage` reads it back; on every date the pair is an exact
inverse.  The codec is modelled on epoch-milliseconds: the decimal-digit
string of the number, read back by a decimal parse. -/

/-- The character of one decimal digit. -/
def digitChar (k : Nat) : Char := Char.ofNat (48 + k)

/-- The numeric value of one decimal-digit character. -/
def digitVal (c : Char) : Nat := c.toNat - 48

/-- Serialize a date (epoch-milliseconds) to its string form, as
`JSON.stringify` does inside `saveCartToStorage`. -/
def dateToStorageString (d : Nat) : String :=
  String.mk (((Nat.digits 10 d).reverse).map digitChar)

/-- Parse a stored date string back to a date, as `new Date(item.addedAt)`
does inside `loadCartFromStorage`. -/
def storageStringToDate (s : String) : Nat :=
  Nat.ofDigits 10 (s.data.reverse.map digitVal)

/-- One cart item as `JSON.stringify` lays it into the storage slot. -/
def serializeCartItem (item : CartItem) : StoredCartItem :=
  { id := item.id
    classData := item.classData
    addedAt := dateToStorageString item.addedAt }

/-- Re-hydration of one stored cart item performed by
`loadCartFromStorage`: every field is kept and `addedAt` is converted from
its string form back to a date (`new Date(item.addedAt)`). -/
def rehydrateCartItem (item : StoredCartItem) : CartItem :=
  { id := item.id
    classData := item.classData
    addedAt := storageStringToDate item.addedAt }

/-- `saveCartToStorage` of `CartContext.tsx`: writes the serialized cart
item list into the `yoga_cart_items` slot. -/
def saveCartToStorage (cartItems : List CartItem) : Option (List StoredCartItem) :=
  some (cartItems.map serializeCartItem)

/-- `loadCartFromStorage` of `CartContext.tsx`: when the slot holds a
stored cart, parse it and convert the `addedAt` strings back to dates;
when the slot is empty the state keeps its initial empty cart. -/
def loadCartFromStorage (slot : Option (List StoredCartItem)) : List CartItem :=
  match slot with
  | none => []
  | some stored => stored.map rehydrateCartItem

/-! ### Cart operations (`CartContext.tsx`) -/

/-- `isInCart` of `CartContext.tsx`. -/
def isInCart (classId : String) (cartItems : List CartItem) : Bool :=
  cartItems.any (fun item => item.id = classId)

/-- `addToCart` of `CartContext.tsx`: a membership check first, then the
new item (with the class instance id as its id and the current time as
`addedAt`) is appended. -/
def addToCart (classData : ClassForDisplay) (now : Nat)
    (cartItems : List CartItem) : List CartItem :=
  if isInCart classData.id cartItems then cartItems
  else cartItems ++ [{ id := classData.id, classData := classData, addedAt := now }]

/-- `removeFromCart` of `CartContext.tsx`. -/
def removeFromCart (classId : String) (cartItems : List CartItem) : List CartItem :=
  cartItems.filter (fun item => item.id ≠ classId)

/-- `clearCart` of `CartContext.tsx`. -/
def clearCart (_cartItems : List CartItem) : List CartItem := []

/-- `getCartTotal` of `CartContext.tsx`. -/
def getCartTotal (cartItems : List CartItem) : Int :=
  cartItems.foldl (fun total item => total + item.classData.pricePerClass) 0

/-- One user-visible mutation of the cart context. -/
inductive CartOp where
  | add (classData : ClassForDisplay) (now : Nat)
  | remove (classId : String)
  | clear
  deriving Repr

/-- Apply one cart operation. -/
def applyCartOp (cartItems : List CartItem) : CartOp → List CartItem
  | .add classData now => addToCart classData now cartItems
  | .remove classId => removeFromCart classId cartItems
  | .clear => clearCart cartItems

/-- Apply a sequence of cart operations. -/
def applyCartOps (ops : List CartOp) (cartItems : List CartItem) : List CartItem :=
  ops.foldl applyCartOp cartItems

/-! ### Course-details screen (`course-details.tsx`) -/

/-- The course fields read from the navigation params by
`loadCourseDetails` in `course-details.tsx` (`courseInfo?.type`,
`courseInfo?.price`, `courseInfo?.duration`, `courseInfo?.capacity`). -/
structure CourseParams where
  type : String
  price : Int
  duration : Int
  capacity : Int
  deriving Repr, DecidableEq

/-- The per-class transformation inside `loadCourseDetails` of
`course-details.tsx`: the class is enhanced with the course name, price
and duration, and `availableSpots` is computed as
`Math.max(0, (courseInfo?.capacity || 20) - 0)`. -/
def enhanceClass (courseInfo : CourseParams) (classItem : ClassInstance) : ClassInstance :=
  { classItem with
    courseName := jsOrStr courseInfo.type "Yoga Class"
    pricePerClass := jsOrInt courseInfo.price 0
    duration := jsOrInt courseInfo.duration 60
    availableSpots := max 0 (jsOrInt courseInfo.capacity 20 - 0) }

/-- The class list produced by `loadCourseDetails` of
`course-details.tsx` from the course params and the classes fetched for
the course. -/
def loadCourseClasses (courseInfo : CourseParams)
    (classesData : List ClassInstance) : List ClassInstance :=
  classesData.map (enhanceClass courseInfo)

/-- Decrement of the displayed `availableSpots` of the booked class, as
`confirmBooking` performs it in `course-details.tsx` and `classes.tsx`
after a successful `createBooking`. -/
def decrementSpots (classId : String) (classes : List ClassInstance) : List ClassInstance :=
  classes.map fun c =>
    if c.id = classId then { c with availableSpots := c.availableSpots - 1 } else c

/-- One booking attempt of the screens (`handleBookClass` followed by
`confirmBooking` in `course-details.tsx` / `classes.tsx`): the handler
receives the currently rendered class; when it is full
(`availableSpots <= 0`) the attempt is refused; otherwise, when the remote
`createBooking` succeeds (`outcome`), the displayed spots of that class
are decremented; on failure the list is untouched. -/
def bookClassStep (classes : List ClassInstance) (classId : String)
    (outcome : Bool) : List ClassInstance :=
  match classes.find? (fun c => c.id = classId) with
  | none => classes
  | some classItem =>
    if classItem.availableSpots ≤ 0 then classes
    else if outcome then decrementSpots classId classes
    else classes

/-- A sequence of booking attempts (class id and remote outcome). -/
def applyBookingActions (classes : List ClassInstance)
    (actions : List (String × Bool)) : List ClassInstance :=
  actions.foldl (fun cs a => bookClassStep cs a.1 a.2) classes

/-! ### Data-access facade (`firebaseService.ts`) -/

/-- `createBooking` of `firebaseService.ts`: the booking data written to
the `bookings` collection, always with `status: 'confirmed'`. -/
def createBooking (customerId customerName customerEmail : String)
    (classInstance : ClassInstance) (now : Nat) : BookingData :=
  { customerId := customerId
    customerName := customerName
    customerEmail := customerEmail
    courseId := classInstance.courseId
    courseName := classInstance.courseName
    classId := classInstance.id
    classDate := classInstance.date
    teacher := classInstance.teacher
    pricePerClass := classInstance.pricePerClass
    bookingDate := now
    status := "confirmed" }

/-- The operations the client can invoke on the data-access facade of
`firebaseService.ts` (one per exported function; `now` is the
`Timestamp.now()` of a booking creation). -/
inductive ClientOp where
  | getCourses
  | getCourse (courseId : String)
  | getClasses
  | getClassesByCourse (courseId : String)
  | getUpcomingClasses (today : String)
  | createBooking (customerId customerName customerEmail : String)
      (classInstance : ClassInstance) (now : Nat)
  | getUserBookings (customerId : String)
  deriving Repr

/-- Effect of one facade operation on the `bookings` collection: every
query leaves it untouched; `createBooking` appends one document. -/
def applyClientOp (bookings : List BookingData) : ClientOp → List BookingData
  | .createBooking cid cn ce ci now => bookings ++ [createBooking cid cn ce ci now]
  | _ => bookings

/-- Effect of a sequence of facade operations on the `bookings`
collection. -/
def applyClientOps (ops : List ClientOp) (bookings : List BookingData) : List BookingData :=
  ops.foldl applyClientOp bookings

/-- Specification function: the booking documents a sequence of facade
operations writes, in order. -/
def bookingsWrittenBy (ops : List ClientOp) : List BookingData :=
  ops.filterMap fun op =>
    match op with
    | .createBooking cid cn ce ci now => some (createBooking cid cn ce ci now)
    | _ => none

/-! ### Composite-index fallback (later revision of the data-access
module) -/

/-- Errors a Firestore query can fail with, as the fallback code
distinguishes them: the missing-composite-index failure and any other
failure. -/
inductive FirestoreError where
  | indexMissing
  | otherFailure
  deriving Repr, DecidableEq

/-- Client-side sort of a class list by date, as the fallback performs
it. -/
def sortClassesByDate (classes : List ClassForDisplay) : List ClassForDisplay :=
  classes.mergeSort (fun a b => decide (a.date ≤ b.date))

/-- The composite-indexed query (`where courseId ==` combined with
`orderBy date`): when the composite index exists it returns the course's
classes ordered by date; when it does not, Firestore rejects the query. -/
def indexedClassesQuery (indexBuilt : Bool) (store : List ClassForDisplay)
    (courseId : String) : Except FirestoreError (List ClassForDisplay) :=
  if indexBuilt then
    .ok (sortClassesByDate (store.filter (fun c => c.courseId = courseId)))
  else .error .indexMissing

/-- Modelled from the spec: `getClassesByCourse` of the later revision of
the data-access module, which is absent from the sources (only its
callers are present); per the spec it falls back from the
composite-indexed query to an unindexed query with client-side sorting
when the index is missing, and propagates any other failure. -/
def getClassesByCourseWithFallback (indexBuilt : Bool)
    (store : List ClassForDisplay) (courseId : String) :
    Except FirestoreError (List ClassForDisplay) :=
  match indexedClassesQuery indexBuilt store courseId with
  | .ok rows => .ok rows
  | .error .indexMissing =>
      .ok (sortClassesByDate (store.filter (fun c => c.courseId = courseId)))
  | .error e => .error e

/-! ### Manual authentication (second revision of `AuthContext.tsx`) -/

/-- The data of a document of the `users` collection, as the manual
authentication revision of `AuthContext.tsx` stores it. -/
structure UserRecord where
  email : String
  password : String
  name : String
  phone : String
  role : String
  created_date : String
  deriving Repr, DecidableEq

/-- A document of the `users` collection: its Firestore document id and
its data. -/
structure UserDoc where
  docId : String
  data : UserRecord
  deriving Repr, DecidableEq

/-- The session user (the interface `UserData` of the manual
authentication revision): the stored record together with the document
id (`{ ...userData, id: userDoc.id }`). -/
structure SessionUser where
  id : String
  email : String
  password : String
  name : String
  phone : String
  role : String
  created_date : String
  deriving Repr, DecidableEq

/-- `{ ...userData, id: userDoc.id }`. -/
def withDocId (d : UserDoc) : SessionUser :=
  { id := d.docId
    email := d.data.email
    password := d.data.password
    name := d.data.name
    phone := d.data.phone
    role := d.data.role
    created_date := d.data.created_date }

/-- The JSON blob `JSON.stringify(userDataWithId)` written to the
`userData` storage slot. -/
def serializeSessionUser (u : SessionUser) : String :=
  u.id ++ "|" ++ u.email ++ "|" ++ u.name ++ "|" ++ u.phone ++ "|" ++ u.role
    ++ "|" ++ u.password ++ "|" ++ u.created_date

/-- The client-side authentication state: the React session user and the
`userData` slot of the local session storage. -/
structure AuthState where
  sessionUser : Option SessionUser
  storedSession : Option String
  deriving Repr, DecidableEq

/-- `login` of the manual authentication revision of `AuthContext.tsx`:
query the `users` collection for documents with the given email and role
`user`; when none matches, fail; otherwise check the password of the
first matching document; on success set the session user and write it to
the session storage; on every failure the state is returned untouched
together with the error message. -/
def login (users : List UserDoc) (st : AuthState) (email password : String) :
    AuthState × Option String :=
  let docs := users.filter fun u => u.data.email == email && u.data.role == "user"
  match docs with
  | [] => (st, some "User not found or invalid credentials")
  | d :: _ =>
    if d.data.password ≠ password then (st, some "Invalid credentials")
    else
      let u := withDocId d
      ({ sessionUser := some u, storedSession := some (serializeSessionUser u) }, none)

/-- `signup` of the manual authentication revision of `AuthContext.tsx`:
query the `users` collection for any document with the given email; when
one exists, fail with the collection, the state and an error, all
untouched; otherwise add the new user document (`addDoc` generates
`newDocId`), set the session user and write it to the session storage. -/
def signup (users : List UserDoc) (st : AuthState)
    (email password name : String) (phone : Option String)
    (now newDocId : String) :
    List UserDoc × AuthState × Option String :=
  if users.any (fun u => u.data.email == email) then
    (users, st, some "User with this email already exists")
  else
    let newUser : UserRecord :=
      { email := email
        password := password
        name := name
        phone := phone.getD ""
        role := "user"
        created_date := now }
    let u : SessionUser :=
      { id := newDocId
        email := newUser.email
        password := newUser.password
        name := newUser.name
        phone := newUser.phone
        role := newUser.role
        created_date := newUser.created_date }
    (users ++ [{ docId := newDocId, data := newUser }],
     { sessionUser := some u, storedSession := some (serializeSessionUser u) },
     none)

/-! ### Cart checkout (`cart.tsx`) -/

/-- The booking data `createBooking(user.id, user.name, user.email,
item.classData)` writes for one cart item during checkout. -/
def createBookingFromClassData (customerId customerName customerEmail : String)
    (classData : ClassForDisplay) (now : Nat) : BookingData :=
  { customerId := customerId
    customerName := customerName
    customerEmail := customerEmail
    courseId := classData.courseId
    courseName := classData.courseName
    classId := classData.id
    classDate := classData.date
    teacher := classData.teacher
    pricePerClass := classData.pricePerClass
    bookingDate := now
    status := "confirmed" }

/-- The accumulators of the checkout loop of `processCheckout`:
`successCount` and `failedBookings` as in the source, the bookings the
loop has created so far, and the ids of the items attempted so far (in
attempt order). -/
structure CheckoutLoopState where
  successCount : Nat
  failedBookings : List String
  createdBookings : List BookingData
  attempted : List String
  deriving Repr, DecidableEq

/-- The checkout loop of `processCheckout` in `cart.tsx`: each cart item
is attempted in order; `outcome i` tells whether the `i`-th
`createBooking` call succeeds; on success the booking is created and
`successCount` incremented, on failure the item's course name is pushed
onto `failedBookings` and the loop continues. -/
def checkoutLoop (user : SessionUser) (now : Nat) (outcome : Nat → Bool) :
    List CartItem → Nat → CheckoutLoopState → CheckoutLoopState
  | [], _, acc => acc
  | item :: rest, i, acc =>
    let acc := { acc with attempted := acc.attempted ++ [item.id] }
    let acc :=
      if outcome i then
        { acc with
          successCount := acc.successCount + 1
          createdBookings := acc.createdBookings ++
            [createBookingFromClassData user.id user.name user.email item.classData now] }
      else
        { acc with failedBookings := acc.failedBookings ++ [item.classData.courseName] }
    checkoutLoop user now outcome rest (i + 1) acc

/-- The empty accumulators `successCount = 0`, `failedBookings = []` at
the start of `processCheckout`. -/
def initialCheckoutState : CheckoutLoopState :=
  { successCount := 0, failedBookings := [], createdBookings := [], attempted := [] }

/-- `processCheckout` of `cart.tsx`: run the loop over the cart; then,
when every item succeeded, clear the cart; when only some succeeded,
remove from the cart the items whose course name is not among the failed
labels (the source's `successfullyBookedItems` filter followed by one
`removeFromCart` per item); when none succeeded, leave the cart alone.
Returns the resulting cart and the `bookings` collection extended by the
created bookings. -/
def processCheckout (user : SessionUser) (now : Nat) (outcome : Nat → Bool)
    (cartItems : List CartItem) (bookings : List BookingData) :
    List CartItem × List BookingData :=
  let r := checkoutLoop user now outcome cartItems 0 initialCheckoutState
  let newBookings := bookings ++ r.createdBookings
  if r.successCount = cartItems.length then (clearCart cartItems, newBookings)
  else if 0 < r.successCount then
    let successfullyBookedItems := cartItems.filter fun item =>
      !(r.failedBookings.contains item.classData.courseName)
    (successfullyBookedItems.foldl (fun c item => removeFromCart item.id c) cartItems,
     newBookings)
  else (cartItems, newBookings)

/-! ### Helper lemmas -/

/-- Decimal digit characters decode to the digit they encode. -/
theorem digitVal_digitChar : ∀ k, k < 10 → digitVal (digitChar k) = k := by
  decide

/-- The date codec of the cart storage is an exact inverse: parsing the
serialized form of a date gives the date back. -/
theorem storageStringToDate_dateToStorageString (d : Nat) :
    storageStringToDate (dateToStorageString d) = d := by
  have hdata : (dateToStorageString d).data
      = ((Nat.digits 10 d).reverse).map digitChar := rfl
  rw [storageStringToDate, hdata, List.map_reverse, List.map_map,
    List.map_reverse, List.reverse_reverse]
  have hmap : (Nat.digits 10 d).map (digitVal ∘ digitChar) = Nat.digits 10 d := by
    refine List.map_congr_left ?_ |>.trans (List.map_id _)
    intro a ha
    exact digitVal_digitChar a (Nat.digits_lt_base (by norm_num) ha)
  rw [hmap, Nat.ofDigits_digits]

/-- Serialization then re-hydration is the identity on one cart item. -/
theorem rehydrate_serialize (item : CartItem) :
    rehydrateCartItem (serializeCartItem item) = item := by
  simp [rehydrateCartItem, serializeCartItem,
    storageStringToDate_dateToStorageString]

/-- Claim C5: saving the cart to local storage and reloading it
reproduces the cart exactly — the same item ids, the same display
fields, and the `addedAt` date fields re-hydrated from their string
serialization back to the original date values. -/
theorem cart_storage_roundtrip (cartItems : List CartItem) :
    loadCartFromStorage (saveCartToStorage cartItems) = cartItems := by
  simp only [saveCartToStorage, loadCartFromStorage, List.map_map]
  refine List.map_congr_left ?_ |>.trans (List.map_id _)
  intro item _
  exact rehydrate_serialize item

/-- Claim C1 fails on the code: for a course of capacity 10 whose class
has 3 confirmed bookings, `loadCourseDetails` in `course-details.tsx`
reports `Math.max(0, (capacity || 20) - 0) = 10` available spots — the
confirmed-booking count is hard-coded to 0 (the source carries the
comment `TODO: Calculate actual bookings`) — while the claimed
computation `max(0, capacity - confirmedCount)` gives 7. -/
theorem course_details_ignores_confirmed_count :
    (enhanceClass { type := "Flow Yoga", price := 15, duration := 60, capacity := 10 }
      { id := "cls1", courseId := "crs1", courseName := "", date := "2025-10-01",
        teacher := "Ann", comments := "", availableSpots := 0, pricePerClass := 0,
        typeOfClass := "", duration := 0 }).availableSpots = 10
    ∧ max 0 ((10 : Int) - 3) = 7 ∧ (10 : Int) ≠ 7 := by
  refine ⟨rfl, by decide, by decide⟩

/-- Claim C7: when the composite index is missing, `getClassesByCourse`
of the later data-access revision falls back to the unindexed query with
a client-side sort and returns the same rows as the indexed query would,
instead of propagating the index error. -/
theorem classes_by_course_fallback (store : List ClassForDisplay) (courseId : String) :
    getClassesByCourseWithFallback false store courseId
      = getClassesByCourseWithFallback true store courseId
    ∧ getClassesByCourseWithFallback false store courseId
      = .ok (sortClassesByDate (store.filter (fun c => c.courseId = courseId))) := by
  constructor <;> rfl

/-- Adding a class whose id is not yet in the cart keeps the item ids
pairwise distinct. -/
theorem addToCart_nodup_ids (classData : ClassForDisplay) (now : Nat)
    (cartItems : List CartItem)
    (h : (cartItems.map (fun item => item.id)).Nodup) :
    ((addToCart classData now cartItems).map (fun item => item.id)).Nodup := by
  unfold addToCart
  split
  · exact h
  · rename_i hnot
    have hni : classData.id ∉ cartItems.map (fun item => item.id) := by
      simp only [isInCart, List.any_eq_true, decide_eq_true_eq] at hnot
      simp only [List.mem_map]
      rintro ⟨item, hmem, hid⟩
      exact hnot ⟨item, hmem, hid⟩
    rw [List.map_append]
    refine List.Nodup.append h (by simp) ?_
    simp only [List.disjoint_singleton, List.map_cons, List.map_nil]
    simpa using hni

/-- Removing an item keeps the item ids pairwise distinct. -/
theorem removeFromCart_nodup_ids (classId : String) (cartItems : List CartItem)
    (h : (cartItems.map (fun item => item.id)).Nodup) :
    ((removeFromCart classId cartItems).map (fun item => item.id)).Nodup :=
  List.Nodup.sublist (List.Sublist.map _ (List.filter_sublist cartItems)) h

/-- Every cart operation keeps the item ids pairwise distinct. -/
theorem applyCartOps_nodup_ids : ∀ (ops : List CartOp) (cartItems : List CartItem),
    (cartItems.map (fun item => item.id)).Nodup →
    ((applyCartOps ops cartItems).map (fun item => item.id)).Nodup := by
  intro ops
  induction ops with
  | nil => intro cartItems h; exact h
  | cons op rest ih =>
    intro cartItems h
    have hstep : ((applyCartOp cartItems op).map (fun item => item.id)).Nodup := by
      cases op with
      | add classData now => exact addToCart_nodup_ids classData now cartItems h
      | remove classId => exact removeFromCart_nodup_ids classId cartItems h
      | clear => simp [applyCartOp, clearCart]
    exact ih (applyCartOp cartItems op) hstep

/-- Claim C4: adding a class instance whose id is already in the cart is
a no-op (the cart, in particular its length, is unchanged), and
consequently the item ids of every cart reachable from the empty cart
are pairwise distinct. -/
theorem addToCart_existing_noop_and_distinct_ids
    (classData : ClassForDisplay) (now : Nat) (cartItems : List CartItem)
    (ops : List CartOp) (h : isInCart classData.id cartItems = true) :
    addToCart classData now cartItems = cartItems
    ∧ ((applyCartOps ops []).map (fun item => item.id)).Nodup :=
  ⟨by simp [addToCart, h], applyCartOps_nodup_ids ops [] (by simp)⟩

/-- A concrete class projection used by the witnesses below. -/
def sampleClassData : ClassForDisplay :=
  { id := "cls1", courseId := "crs1", courseName := "Morning Flow",
    date := "2025-10-01", teacher := "Ann", duration := 60,
    difficulty := "easy", availableSpots := 5, pricePerClass := 12 }

/-- A concrete cart item holding `sampleClassData`. -/
def sampleCartItem : CartItem :=
  { id := "cls1", classData := sampleClassData, addedAt := 7 }

/-- Witness for claim C4 at a concrete cart: the sample class is in the
cart, re-adding it is a no-op, and a run of two duplicate adds from the
empty cart yields distinct ids. -/
theorem addToCart_existing_noop_and_distinct_ids_witness :
    isInCart sampleClassData.id [sampleCartItem] = true
    ∧ (addToCart sampleClassData 9 [sampleCartItem] = [sampleCartItem]
      ∧ ((applyCartOps [CartOp.add sampleClassData 3, CartOp.add sampleClassData 4] []).map
          (fun item => item.id)).Nodup) :=
  ⟨by decide,
   addToCart_existing_noop_and_distinct_ids sampleClassData 9 [sampleCartItem]
     [CartOp.add sampleClassData 3, CartOp.add sampleClassData 4] (by decide)⟩

/-- The local decrement after a successful booking does not change any
class id. -/
theorem decrementSpots_ids (classId : String) (classes : List ClassInstance) :
    (decrementSpots classId classes).map (fun c => c.id)
      = classes.map (fun c => c.id) := by
  unfold decrementSpots
  rw [List.map_map]
  refine List.map_congr_left ?_
  intro c _
  by_cases h : c.id = classId <;> simp [h]

/-- One booking attempt preserves both the distinctness of the class ids
and the non-negativity of every displayed `availableSpots`. -/
theorem bookClassStep_inv (classes : List ClassInstance) (classId : String)
    (outcome : Bool)
    (h1 : (classes.map (fun c => c.id)).Nodup)
    (h2 : ∀ c ∈ classes, 0 ≤ c.availableSpots) :
    ((bookClassStep classes classId outcome).map (fun c => c.id)).Nodup
    ∧ ∀ c ∈ bookClassStep classes classId outcome, 0 ≤ c.availableSpots := by
  unfold bookClassStep
  cases hf : classes.find? (fun c => decide (c.id = classId)) with
  | none => exact ⟨h1, h2⟩
  | some item =>
    have hmem : item ∈ classes := List.mem_of_find?_eq_some hf
    have hid : item.id = classId := by
      have := List.find?_some hf
      simpa using this
    by_cases hle : item.availableSpots ≤ 0
    · simp only [if_pos hle]
      exact ⟨h1, h2⟩
    · simp only [if_neg hle]
      cases outcome with
      | false => exact ⟨h1, h2⟩
      | true =>
        rw [if_pos rfl]
        refine ⟨by rw [decrementSpots_ids]; exact h1, ?_⟩
        intro c hc
        unfold decrementSpots at hc
        rw [List.mem_map] at hc
        obtain ⟨a, ha, rfl⟩ := hc
        by_cases hca : a.id = classId
        · have haitem : a = item :=
            List.inj_on_of_nodup_map h1 ha hmem (by rw [hca, hid])
          subst haitem
          simp only [if_pos hca]
          omega
        · simp only [if_neg hca]
          exact h2 a ha

/-- Every sequence of booking attempts preserves distinct class ids and
non-negative displayed spots. -/
theorem applyBookingActions_inv :
    ∀ (actions : List (String × Bool)) (classes : List ClassInstance),
    (classes.map (fun c => c.id)).Nodup →
    (∀ c ∈ classes, 0 ≤ c.availableSpots) →
    ((applyBookingActions classes actions).map (fun c => c.id)).Nodup
    ∧ ∀ c ∈ applyBookingActions classes actions, 0 ≤ c.availableSpots := by
  intro actions
  induction actions with
  | nil => intro classes h1 h2; exact ⟨h1, h2⟩
  | cons a rest ih =>
    intro classes h1 h2
    have hstep := bookClassStep_inv classes a.1 a.2 h1 h2
    exact ih (bookClassStep classes a.1 a.2) hstep.1 hstep.2

/-- `loadCourseDetails` keeps the class ids. -/
theorem loadCourseClasses_ids (courseInfo : CourseParams)
    (classesData : List ClassInstance) :
    (loadCourseClasses courseInfo classesData).map (fun c => c.id)
      = classesData.map (fun c => c.id) := by
  unfold loadCourseClasses
  rw [List.map_map]
  rfl

/-- Every class produced by `loadCourseDetails` has non-negative
displayed spots (the computation is clamped by `Math.max(0, _)`). -/
theorem loadCourseClasses_nonneg (courseInfo : CourseParams)
    (classesData : List ClassInstance) :
    ∀ c ∈ loadCourseClasses courseInfo classesData, 0 ≤ c.availableSpots := by
  intro c hc
  unfold loadCourseClasses at hc
  rw [List.mem_map] at hc
  obtain ⟨a, _, rfl⟩ := hc
  exact le_max_left 0 _

/-- Claim C6: the available seats reported for any class of a course are
never negative — the loaded value is clamped at zero, and this is
preserved by the guarded local decrement of every successful booking. -/
theorem reported_spots_never_negative (courseInfo : CourseParams)
    (classesData : List ClassInstance) (actions : List (String × Bool))
    (h : (classesData.map (fun c => c.id)).Nodup) :
    ∀ c ∈ applyBookingActions (loadCourseClasses courseInfo classesData) actions,
      0 ≤ c.availableSpots := by
  refine (applyBookingActions_inv actions _ ?_ ?_).2
  · rw [loadCourseClasses_ids]; exact h
  · exact loadCourseClasses_nonneg courseInfo classesData

/-- A concrete class-instance document used by the witnesses below. -/
def sampleClassInstance : ClassInstance :=
  { id := "a", courseId := "crs1", courseName := "", date := "2025-10-01",
    teacher := "Ann", comments := "", availableSpots := 0, pricePerClass := 0,
    typeOfClass := "", duration := 0 }

/-- Witness for claim C6 at a concrete course: one class of capacity 2,
one successful booking; the resulting displayed class keeps non-negative
spots. -/
theorem reported_spots_never_negative_witness :
    ([sampleClassInstance].map (fun c => c.id)).Nodup
    ∧ 0 ≤ (⟨"a", "crs1", "Yoga", "2025-10-01", "Ann", "", 1, 5, "", 30⟩
        : ClassInstance).availableSpots :=
  ⟨by decide,
   reported_spots_never_negative
     { type := "Yoga", price := 5, duration := 30, capacity := 2 }
     [sampleClassInstance] [("a", true)] (by decide) _ (by decide)⟩

/-- Characterization of the checkout loop: starting from accumulators
`acc` at index `i`, every item is attempted exactly once in list order,
the bookings of the successful attempts are created in order, and the
course names of the failed attempts are recorded in order. -/
theorem checkoutLoop_spec (user : SessionUser) (now : Nat) (outcome : Nat → Bool) :
    ∀ (items : List CartItem) (i : Nat) (acc : CheckoutLoopState),
    checkoutLoop user now outcome items i acc =
      { successCount := acc.successCount +
          ((List.enumFrom i items).filter (fun p => outcome p.1)).length
        failedBookings := acc.failedBookings ++
          ((List.enumFrom i items).filter (fun p => !outcome p.1)).map
            (fun p => p.2.classData.courseName)
        createdBookings := acc.createdBookings ++
          ((List.enumFrom i items).filter (fun p => outcome p.1)).map
            (fun p => createBookingFromClassData user.id user.name user.email
              p.2.classData now)
        attempted := acc.attempted ++ items.map (fun item => item.id) } := by
  intro items
  induction items with
  | nil => intro i acc; simp [checkoutLoop, List.enumFrom]
  | cons item rest ih =>
    intro i acc
    rw [checkoutLoop, ih]
    cases hoi : outcome i <;>
      simp [List.enumFrom_cons, hoi, Nat.add_assoc, Nat.add_comm 1]

/-- Claim C9: during checkout every cart item is attempted exactly once,
sequentially and in cart order (the attempt list is exactly the cart's
item ids in order); each failure is recorded by the failing item's course
name, in order, while the loop continues; and there is no rollback — the
final bookings collection is the initial one extended by the booking of
every successful attempt, whatever later failures occurred. -/
theorem checkout_attempts_each_item_once_no_rollback (user : SessionUser)
    (now : Nat) (outcome : Nat → Bool) (items : List CartItem)
    (bookings : List BookingData) :
    (checkoutLoop user now outcome items 0 initialCheckoutState).attempted
      = items.map (fun item => item.id)
    ∧ (checkoutLoop user now outcome items 0 initialCheckoutState).failedBookings
      = ((List.enumFrom 0 items).filter (fun p => !outcome p.1)).map
          (fun p => p.2.classData.courseName)
    ∧ (checkoutLoop user now outcome items 0 initialCheckoutState).createdBookings
      = ((List.enumFrom 0 items).filter (fun p => outcome p.1)).map
          (fun p => createBookingFromClassData user.id user.name user.email
            p.2.classData now)
    ∧ (processCheckout user now outcome items bookings).2
      = bookings ++
          (checkoutLoop user now outcome items 0 initialCheckoutState).createdBookings := by
  refine ⟨?_, ?_, ?_, ?_⟩
  · rw [checkoutLoop_spec]; simp [initialCheckoutState]
  · rw [checkoutLoop_spec]; simp [initialCheckoutState]
  · rw [checkoutLoop_spec]; simp [initialCheckoutState]
  · simp only [processCheckout]
    split
    · rfl
    · split <;> rfl

/-- A second concrete class projection, a different class instance of the
same course (so it carries the same course name) as `sampleClassData`. -/
def sampleClassDataB : ClassForDisplay :=
  { id := "cls2", courseId := "crs1", courseName := "Morning Flow",
    date := "2025-10-08", teacher := "Ann", duration := 60,
    difficulty := "easy", availableSpots := 5, pricePerClass := 12 }

/-- A concrete session user for the checkout evaluations. -/
def sampleUser : SessionUser :=
  { id := "u1", email := "u@example.com", password := "pw", name := "Uma",
    phone := "", role := "user", created_date := "0" }

/-- Claim C2 fails on the code: checking out a cart of N = 2 items that
are two different classes of the same course, where the first booking
succeeds and the second fails (M = 1), creates exactly N - M = 1 booking
but removes 0 items from the cart instead of N - M = 1 — the source
removes by course-name membership in the failed list, and the succeeded
item shares its course name with the failed one. -/
theorem checkout_partial_removes_by_course_name :
    (processCheckout sampleUser 0 (fun i => i == 0)
        [{ id := "cls1", classData := sampleClassData, addedAt := 0 },
         { id := "cls2", classData := sampleClassDataB, addedAt := 0 }] []).1
      = [{ id := "cls1", classData := sampleClassData, addedAt := 0 },
         { id := "cls2", classData := sampleClassDataB, addedAt := 0 }]
    ∧ ((processCheckout sampleUser 0 (fun i => i == 0)
        [{ id := "cls1", classData := sampleClassData, addedAt := 0 },
         { id := "cls2", classData := sampleClassDataB, addedAt := 0 }] []).2).length
      = 1 := by
  constructor
  · rfl
  · rfl

/-- A run of facade operations appends exactly the bookings it writes and
touches nothing else in the `bookings` collection. -/
theorem applyClientOps_append : ∀ (ops : List ClientOp) (bookings : List BookingData),
    applyClientOps ops bookings = bookings ++ bookingsWrittenBy ops := by
  intro ops
  induction ops with
  | nil => intro bookings; simp [applyClientOps, bookingsWrittenBy]
  | cons op rest ih =>
    intro bookings
    have hstep : applyClientOps (op :: rest) bookings
        = applyClientOps rest (applyClientOp bookings op) := rfl
    rw [hstep, ih]
    cases op <;>
      simp [applyClientOp, bookingsWrittenBy, List.filterMap_cons,
        List.append_assoc]

/-- Every booking a run of facade operations writes has status
`confirmed`. -/
theorem bookingsWrittenBy_confirmed : ∀ (ops : List ClientOp),
    ∀ b ∈ bookingsWrittenBy ops, b.status = "confirmed" := by
  intro ops
  induction ops with
  | nil => intro b hb; simp [bookingsWrittenBy] at hb
  | cons op rest ih =>
    intro b hb
    cases op with
    | createBooking cid cn ce ci now =>
      rw [bookingsWrittenBy, List.filterMap_cons] at hb
      simp only at hb
      rcases List.mem_cons.mp hb with hb | hb
      · rw [hb]; rfl
      · exact ih b hb
    | getCourses => exact ih b hb
    | getCourse courseId => exact ih b hb
    | getClasses => exact ih b hb
    | getClassesByCourse courseId => exact ih b hb
    | getUpcomingClasses today => exact ih b hb
    | getUserBookings customerId => exact ih b hb

/-- Claim C8: every booking created by the client carries status
`confirmed`; no facade operation updates or deletes an existing booking
(a run leaves the initial collection as a prefix, extended only by the
newly created bookings), and no code path writes the status
`cancelled`. -/
theorem client_only_creates_confirmed_bookings (ops : List ClientOp)
    (bookings : List BookingData) (b : BookingData)
    (hb : b ∈ bookingsWrittenBy ops) :
    applyClientOps ops bookings = bookings ++ bookingsWrittenBy ops
    ∧ b.status = "confirmed" ∧ b.status ≠ "cancelled" := by
  refine ⟨applyClientOps_append ops bookings, bookingsWrittenBy_confirmed ops b hb, ?_⟩
  rw [bookingsWrittenBy_confirmed ops b hb]
  decide

/-- A concrete class-instance document for the facade witness. -/
def sampleFacadeClass : ClassInstance :=
  { id := "cls1", courseId := "crs1", courseName := "Morning Flow",
    date := "2025-10-01", teacher := "Ann", comments := "", availableSpots := 5,
    pricePerClass := 12, typeOfClass := "Flow", duration := 60 }

/-- Witness for claim C8 at a concrete run: one query and one booking
creation. -/
theorem client_only_creates_confirmed_bookings_witness :
    createBooking "u1" "Uma" "u@example.com" sampleFacadeClass 5
        ∈ bookingsWrittenBy
          [ClientOp.getCourses,
           ClientOp.createBooking "u1" "Uma" "u@example.com" sampleFacadeClass 5]
    ∧ (applyClientOps
          [ClientOp.getCourses,
           ClientOp.createBooking "u1" "Uma" "u@example.com" sampleFacadeClass 5] []
        = [] ++ bookingsWrittenBy
            [ClientOp.getCourses,
             ClientOp.createBooking "u1" "Uma" "u@example.com" sampleFacadeClass 5]
      ∧ (createBooking "u1" "Uma" "u@example.com" sampleFacadeClass 5).status = "confirmed"
      ∧ (createBooking "u1" "Uma" "u@example.com" sampleFacadeClass 5).status ≠ "cancelled") :=
  ⟨by decide,
   client_only_creates_confirmed_bookings
     [ClientOp.getCourses,
      ClientOp.createBooking "u1" "Uma" "u@example.com" sampleFacadeClass 5] []
     (createBooking "u1" "Uma" "u@example.com" sampleFacadeClass 5) (by decide)⟩

/-- Claim C3: a login attempt whose email/password pair matches no stored
user's credentials fails — the returned session state is the input state
(no session user set, nothing written to session storage) and an error is
reported. -/
theorem login_mismatch_leaves_session_untouched (users : List UserDoc)
    (st : AuthState) (email password : String)
    (h : ∀ u ∈ users, ¬ (u.data.email = email ∧ u.data.password = password)) :
    (login users st email password).1 = st
    ∧ (login users st email password).2 ≠ none := by
  unfold login
  cases hd : users.filter (fun u => u.data.email == email && u.data.role == "user") with
  | nil => exact ⟨rfl, by simp⟩
  | cons d rest =>
    have hdmem : d ∈ users.filter
        (fun u => u.data.email == email && u.data.role == "user") := by
      rw [hd]; exact List.mem_cons_self d rest
    obtain ⟨hdu, hdp⟩ := List.mem_filter.mp hdmem
    have hde : d.data.email = email := by
      have := (Bool.and_eq_true _ _).mp hdp
      exact eq_of_beq this.1
    have hdpw : d.data.password ≠ password := fun hpw => h d hdu ⟨hde, hpw⟩
    dsimp only
    rw [if_pos hdpw]
    exact ⟨rfl, by simp⟩

/-- A concrete `users` collection with one stored user. -/
def sampleUsers : List UserDoc :=
  [{ docId := "u1",
     data := { email := "a@b.c", password := "pw", name := "Uma", phone := "",
               role := "user", created_date := "0" } }]

/-- The empty session state. -/
def emptyAuthState : AuthState := { sessionUser := none, storedSession := none }

/-- Witness for claim C3 at a concrete store: a wrong password for the
stored email matches no credentials, and login leaves the empty session
state untouched with an error. -/
theorem login_mismatch_leaves_session_untouched_witness :
    (∀ u ∈ sampleUsers, ¬ (u.data.email = "a@b.c" ∧ u.data.password = "wrong"))
    ∧ ((login sampleUsers emptyAuthState "a@b.c" "wrong").1 = emptyAuthState
      ∧ (login sampleUsers emptyAuthState "a@b.c" "wrong").2 ≠ none) :=
  ⟨by decide,
   login_mismatch_leaves_session_untouched sampleUsers emptyAuthState
     "a@b.c" "wrong" (by decide)⟩

/-- Claim C10: signing up with an email for which a user document already
exists fails atomically — no user document is added, the session user is
not set and nothing is written to session storage (the collection and
state are returned untouched), and an error is reported. -/
theorem signup_existing_email_atomic_failure (users : List UserDoc)
    (st : AuthState) (email password name : String) (phone : Option String)
    (now newDocId : String)
    (h : ∃ u ∈ users, u.data.email = email) :
    (signup users st email password name phone now newDocId).1 = users
    ∧ (signup users st email password name phone now newDocId).2.1 = st
    ∧ (signup users st email password name phone now newDocId).2.2 ≠ none := by
  have hany : users.any (fun u => u.data.email == email) = true := by
    rw [List.any_eq_true]
    obtain ⟨u, hu, he⟩ := h
    exact ⟨u, hu, by simp [he]⟩
  unfold signup
  rw [if_pos hany]
  exact ⟨rfl, rfl, by simp⟩

/-- Witness for claim C10 at a concrete store: signing up again with the
stored email is rejected and touches nothing. -/
theorem signup_existing_email_atomic_failure_witness :
    (∃ u ∈ sampleUsers, u.data.email = "a@b.c")
    ∧ ((signup sampleUsers emptyAuthState "a@b.c" "pw2" "Vic" none "1" "u2").1
        = sampleUsers
      ∧ (signup sampleUsers emptyAuthState "a@b.c" "pw2" "Vic" none "1" "u2").2.1
        = emptyAuthState
      ∧ (signup sampleUsers emptyAuthState "a@b.c" "pw2" "Vic" none "1" "u2").2.2
        ≠ none) :=
  ⟨by decide,
   signup_existing_email_atomic_failure sampleUsers emptyAuthState
     "a@b.c" "pw2" "Vic" none "1" "u2" (by decide)⟩
